import Mathlib

/-!
# Verification of the Flappy-Bird game / RL environment

Shallow embedding of the game simulation implemented in `src/objects.py`,
`src/scenes.py`, `src/settings.py` and `src/game.py`.

Modelling conventions:
* Python integers become `Int`.  Pixel coordinates, velocities and sprite
  dimensions are all Python ints in the source (sprite dimensions come from
  the loaded image surfaces, so they are parameters here).
* Sprite surfaces are represented by their dimensions only: `spriteW` and
  `spriteH` stand for `self.sprite.get_width()` / `get_height()`, and
  `surfaceH` for `self.surface.get_height()`.
* `random.randrange(lo, hi)` is modelled by a parameter `r` together with
  hypotheses `lo ≤ r` and `r < hi` wherever the drawn value matters.
* The pygame event queue is modelled by an explicit list of events passed to
  the functions that poll it.
* Python code that would raise (indexing `pipes[0]` / `pipes[-1]` on an empty
  list, `KeyError` on an unknown action, attribute errors on the wrong scene
  class) is modelled with `Option` / an explicit crash outcome.
* Midpoint comparisons in `GameScene._check_player` use Python float division
  `x + w / 2`; both sides are half-integers, so we compare the doubled values
  `2 * x + w`, which is exact.
-/

/-- Sprite dimensions of the images loaded from `resources/sprites/*.png`.
The repository does not fix these numbers in code; they are parameters of
the model. -/
structure Assets where
  birdW : Int
  birdH : Int
  pipeW : Int
  pipeH : Int
deriving Repr, DecidableEq

/-- `Player` from `src/objects.py`.  `spriteW`/`spriteH` model
`self.sprite.get_width()`/`get_height()` (the bird image), `surfaceH` models
`self.surface.get_height()`. -/
structure Player where
  x : Int
  y : Int
  spriteW : Int
  spriteH : Int
  surfaceH : Int
  velocity : Int
deriving Repr, DecidableEq

/-- `self.MAX_VELOCITY_Y = 10` in `Player.__init__`. -/
def MAX_VELOCITY_Y : Int := 10

/-- `self.MIN_VELOCITY_Y = -8` in `Player.__init__`. -/
def MIN_VELOCITY_Y : Int := -8

/-- `self.ACC_Y = 1` in `Player.__init__`. -/
def ACC_Y : Int := 1

/-- `self.JUMP_VELOCITY = -8` in `Player.__init__`. -/
def JUMP_VELOCITY : Int := -8

/-- `Player.__init__`: position from the arguments, `velocity = -8`. -/
def Player.init (x y birdW birdH surfaceH : Int) : Player :=
  { x := x, y := y, spriteW := birdW, spriteH := birdH,
    surfaceH := surfaceH, velocity := -8 }

/-- `Player.jump`: `self.velocity = self.JUMP_VELOCITY`. -/
def Player.jump (p : Player) : Player :=
  { p with velocity := JUMP_VELOCITY }

/-- The velocity used by `Player.update` after the gravity step:
`if self.velocity < self.MAX_VELOCITY_Y: self.velocity += self.ACC_Y`. -/
def Player.newVelocity (p : Player) : Int :=
  if p.velocity < MAX_VELOCITY_Y then p.velocity + ACC_Y else p.velocity

/-- `Player.update`: gravity step, `self.y += self.velocity`, then the two
screen-bound clamps, each of which zeroes the velocity. -/
def Player.update (p : Player) : Player :=
  let v := p.newVelocity
  let y := p.y + v
  let y1 := if y < 0 then 0 else y
  let v1 := if y < 0 then 0 else v
  let bound := p.surfaceH - p.spriteH
  { p with
    y := if y1 > bound then bound else y1,
    velocity := if y1 > bound then 0 else v1 }

/-- The two values of `Game._action_to_move`: the strings `"jump"` and
`"do nothing"`. -/
inductive Move
| jump
| doNothing
deriving Repr, DecidableEq

/-- `Player.take_action`: `if action == "jump": self.jump()`. -/
def Player.take_action (p : Player) (action : Move) : Player :=
  match action with
  | Move.jump => p.jump
  | Move.doNothing => p

/-- `Pipe` from `src/objects.py`.  `spriteW`/`spriteH` model the pipe image
dimensions (flipping the image for an upside-down pipe keeps them). -/
structure Pipe where
  x : Int
  y : Int
  spriteW : Int
  spriteH : Int
  velocity : Int
deriving Repr, DecidableEq

/-- `Pipe.__init__`: `self.velocity = -4`; `upside_down` only selects the
flipped image, which has the same dimensions. -/
def Pipe.init (x y : Int) (_upside_down : Bool) (pipeW pipeH : Int) : Pipe :=
  { x := x, y := y, spriteW := pipeW, spriteH := pipeH, velocity := -4 }

/-- `Pipe.update`: `self.x += self.velocity`. -/
def Pipe.update (p : Pipe) : Pipe :=
  { p with x := p.x + p.velocity }

/-- `Pipe.collides`: the nested axis-overlap conditionals. -/
def Pipe.collides (pipe : Pipe) (player : Player) : Bool :=
  if pipe.x < player.x + player.spriteW ∧ pipe.x + pipe.spriteW > player.x then
    if pipe.y < player.y + player.spriteH ∧ pipe.y + pipe.spriteH > player.y then
      true
    else false
  else false

/-- `OFFSET = 110` in `_generate_pipes` (`src/scenes.py`). -/
def OFFSET : Int := 110

/-- `_generate_pipes(screen)` from `src/scenes.py`, with the value of
`random.randrange(-sprite.get_height() + OFFSET, 0)` passed in as `r`:
both pipes at `x = screen.get_width()`, the top pipe (upside down) at
`y = r`, the bottom pipe at `y = r + pipe_height + OFFSET`. -/
def generate_pipes (screenW pipeW pipeH r : Int) : Pipe × Pipe :=
  (Pipe.init screenW r true pipeW pipeH,
   Pipe.init screenW (r + pipeH + OFFSET) false pipeW pipeH)

/-- The transition codes returned as strings by the scene methods:
`"MainMenu"` and `"GameScene"`. -/
inductive SceneCode
| toMainMenu
| toGameScene
deriving Repr, DecidableEq

/-- Keys a `KEYDOWN` pygame event may carry, as far as the game inspects
them: `K_SPACE`, `K_m`, anything else. -/
inductive Key
| space
| keyM
| other
deriving Repr, DecidableEq

/-- A pygame event, as far as the game inspects it: `KEYDOWN` with a key,
`QUIT`, anything else. -/
inductive Event
| keydown (k : Key)
| quit
| other
deriving Repr, DecidableEq

/-- `GameScene` from `src/scenes.py`.  `screenW`/`screenH` model the screen
surface dimensions, `assets` the loaded sprite images. -/
structure GameScene where
  screenW : Int
  screenH : Int
  assets : Assets
  is_ml : Bool
  has_passed_a_pipe : Bool
  player : Player
  score : Nat
  pipes : List (Pipe × Pipe)
deriving Repr, DecidableEq

/-- `GameScene.__init__`: flag cleared, player at `(100, 300)`, score `0`,
one generated pipe pair (random draw `r`). -/
def GameScene.init (screenW screenH : Int) (is_ml : Bool) (a : Assets)
    (r : Int) : GameScene :=
  { screenW := screenW, screenH := screenH, assets := a, is_ml := is_ml,
    has_passed_a_pipe := false,
    player := Player.init 100 300 a.birdW a.birdH screenH,
    score := 0,
    pipes := [generate_pipes screenW a.pipeW a.pipeH r] }

/-- The midpoint-window test of `GameScene._check_player` for one pipe pair:
`pipe_mid <= player_mid < pipe_mid + 4` where `player_mid = player.x + w/2`
and `pipe_mid = pipe[0].x + w/2`.  `pm` is the doubled player midpoint
`2 * player.x + player.spriteW`; doubling both sides makes the half-integer
float comparison exact. -/
def inWindow (pm : Int) (pt : Pipe × Pipe) : Bool :=
  decide (2 * pt.1.x + pt.1.spriteW ≤ pm ∧ pm < 2 * pt.1.x + pt.1.spriteW + 8)

/-- The loop body of `GameScene._check_player`: on a window hit, increment
the score and set `has_passed_a_pipe`. -/
def check_player_step (pm : Int) (acc : GameScene) (pt : Pipe × Pipe) :
    GameScene :=
  if inWindow pm pt then
    { acc with score := acc.score + 1, has_passed_a_pipe := true }
  else acc

/-- `GameScene._check_player`: fold the loop body over all pipe pairs;
`player_mid` is computed once before the loop. -/
def GameScene.check_player (s : GameScene) : GameScene :=
  List.foldl (check_player_step (2 * s.player.x + s.player.spriteW)) s s.pipes

/-- The scene with its pipe list replaced (the in-place mutation of
`self.pipes`). -/
def GameScene.with_pipes (s : GameScene) (l : List (Pipe × Pipe)) :
    GameScene :=
  { s with pipes := l }

/-- `GameScene._check_pipes`: on the front pair only, append a freshly
generated pair when `0 < x < 5`, then pop the front pair when
`x < -sprite_width`.  Python indexes `self.pipes[0]`, so an empty list
raises `IndexError`, modelled by `none`. -/
def GameScene.check_pipes (s : GameScene) (r : Int) : Option GameScene :=
  match s.pipes with
  | [] => none
  | hd :: _ =>
    let pipes1 :=
      if 0 < hd.1.x ∧ hd.1.x < 5 then
        s.pipes ++ [generate_pipes s.screenW s.assets.pipeW s.assets.pipeH r]
      else s.pipes
    let pipes2 := if hd.1.x < -hd.1.spriteW then pipes1.tail else pipes1
    some (s.with_pipes pipes2)

/-- `GameScene._update_positions`: update the player and every pipe. -/
def GameScene.update_positions (s : GameScene) : GameScene :=
  { s with
    player := s.player.update,
    pipes := s.pipes.map (fun pt => (pt.1.update, pt.2.update)) }

/-- `GameScene.check_collisions`: the player collides with either pipe of
some pair, or with the ground
(`player.y + sprite_height >= screen.get_height()`). -/
def GameScene.check_collisions (s : GameScene) : Bool :=
  (s.pipes.any fun pt =>
    pt.1.collides s.player || pt.2.collides s.player)
  || decide (s.player.y + s.player.spriteH ≥ s.screenH)

/-- `GameScene.update_screen`: on a collision return the transition code
immediately (sound effect is external); otherwise run `_check_player`,
`_update_positions`, `_check_pipes` and the draw calls, returning no code. -/
def GameScene.update_screen (s : GameScene) (r : Int) :
    Option (GameScene × Option SceneCode) :=
  if s.check_collisions then
    some (s, some (if s.is_ml then SceneCode.toGameScene
                   else SceneCode.toMainMenu))
  else
    match (s.check_player.update_positions).check_pipes r with
    | none => none
    | some s3 => some (s3, none)

/-- `GameScene.check_events`: on `KEYDOWN` with space the player jumps
(flap sound is external); on `KEYDOWN` with `m` the code `"MainMenu"` is
returned. -/
def GameScene.check_events (s : GameScene) (e : Event) :
    GameScene × Option SceneCode :=
  match e with
  | Event.keydown k =>
    let s1 := if k = Key.space then { s with player := s.player.jump } else s
    if k = Key.keyM then (s1, some SceneCode.toMainMenu) else (s1, none)
  | _ => (s, none)

/-- `self.pipes[-1][0].x - (player.x + player_width)` — Python raises on an
empty list, hence `Option`. -/
def GameScene.get_horizontal_distance_to_next_pipe (s : GameScene) :
    Option Int :=
  s.pipes.getLast?.map fun pt => pt.1.x - (s.player.x + s.player.spriteW)

/-- `player.y - (self.pipes[-1][0].y + pipe_height)`. -/
def GameScene.get_vertical_distance_to_upper_pipe (s : GameScene) :
    Option Int :=
  s.pipes.getLast?.map fun pt => s.player.y - (pt.1.y + pt.1.spriteH)

/-- `self.pipes[-1][1].y - (player.y + player_height)`. -/
def GameScene.get_vertical_distance_to_lower_pipe (s : GameScene) :
    Option Int :=
  s.pipes.getLast?.map fun pt => pt.2.y - (s.player.y + s.player.spriteH)

/-- `MainMenu` from `src/scenes.py`. -/
structure MainMenu where
  screenW : Int
  screenH : Int
  assets : Assets
  player : Player
  pipes : Pipe × Pipe
deriving Repr, DecidableEq

/-- `MainMenu.__init__`: player at `(w/2 - 20, h/2)` (Python float division;
exact for the even 300×512 screen, modelled with integer division), a
decorative pipe pair generated and then moved to fixed positions. -/
def MainMenu.init (screenW screenH : Int) (a : Assets) (r : Int) : MainMenu :=
  let g := generate_pipes screenW a.pipeW a.pipeH r
  { screenW := screenW, screenH := screenH, assets := a,
    player := Player.init (screenW / 2 - 20) (screenH / 2) a.birdW a.birdH
      screenH,
    pipes := ({ g.1 with y := -120, x := g.1.x - 100 },
              { g.2 with y := 320, x := g.2.x - 100 }) }

/-- `MainMenu.update_screen`: scroll the decorative pipes and wrap them back
to `x = 400` once the first one passes `x < -100`; always returns no code. -/
def MainMenu.update_screen (m : MainMenu) : MainMenu :=
  let p1 := m.pipes.1.update
  let p2 := m.pipes.2.update
  if p1.x < -100 then
    { m with pipes := ({ p1 with x := 400 }, { p2 with x := 400 }) }
  else
    { m with pipes := (p1, p2) }

/-- `MainMenu.check_events`: `KEYDOWN` with space returns `"GameScene"`. -/
def MainMenu.check_events (e : Event) : Option SceneCode :=
  match e with
  | Event.keydown k =>
    if k = Key.space then some SceneCode.toGameScene else none
  | _ => none

/-- The two scene classes a `Game` can hold in `current_scene`. -/
inductive Scene
| menu (m : MainMenu)
| game (s : GameScene)
deriving Repr, DecidableEq

/-- `Settings.SCREEN_WIDTH` from `src/settings.py`. -/
def SCREEN_WIDTH : Int := 300

/-- `Settings.SCREEN_HEIGHT` from `src/settings.py`. -/
def SCREEN_HEIGHT : Int := 512

/-- `Game` from `src/game.py`: the mode flag and the current scene.  The
screen dimensions and loaded sprites are carried along as model parameters
(`self.screen`, image loads). -/
structure Game where
  is_ml : Bool
  screenW : Int
  screenH : Int
  assets : Assets
  current_scene : Scene
deriving Repr, DecidableEq

/-- `Game.__init__`: 300×512 screen; a `GameScene` in ml mode, the
`MainMenu` otherwise (random draw `r` for the initial pipe pair). -/
def Game.init (is_ml : Bool) (a : Assets) (r : Int) : Game :=
  { is_ml := is_ml, screenW := SCREEN_WIDTH, screenH := SCREEN_HEIGHT,
    assets := a,
    current_scene :=
      if is_ml then
        Scene.game (GameScene.init SCREEN_WIDTH SCREEN_HEIGHT is_ml a r)
      else Scene.menu (MainMenu.init SCREEN_WIDTH SCREEN_HEIGHT a r) }

/-- `Game._set_scene`. -/
def Game.set_scene (g : Game) (sc : Scene) : Game :=
  { g with current_scene := sc }

/-- A fresh `GameScene(self.screen, self.is_ml)` as constructed inside
`Game` (random draw `r`). -/
def Game.freshGameScene (g : Game) (r : Int) : GameScene :=
  GameScene.init g.screenW g.screenH g.is_ml g.assets r

/-- A fresh `MainMenu(self.screen)` as constructed inside `Game` (random
draw `r`). -/
def Game.freshMainMenu (g : Game) (r : Int) : MainMenu :=
  MainMenu.init g.screenW g.screenH g.assets r

/-- `Game.reset` (scene part): replace the current scene by a fresh
`GameScene(self.screen, self.is_ml)`; the observation/info return value is
modelled separately where needed. -/
def Game.reset (g : Game) (r : Int) : Game :=
  g.set_scene (Scene.game (g.freshGameScene r))

/-- `Game._update_screen`: run the current scene's `update_screen`; on code
`"MainMenu"` install a fresh menu, on code `"GameScene"` call `reset()`
(ml mode only).  `rN` is the random draw used if a new scene or pipe pair is
generated. -/
def Game.update_screen (g : Game) (r rN : Int) : Option Game :=
  match g.current_scene with
  | Scene.menu m => some (g.set_scene (Scene.menu m.update_screen))
  | Scene.game s =>
    match s.update_screen r with
    | none => none
    | some (s1, code) =>
      match code with
      | some SceneCode.toMainMenu =>
        some (g.set_scene (Scene.menu (g.freshMainMenu rN)))
      | some SceneCode.toGameScene => some (g.reset rN)
      | none => some (g.set_scene (Scene.game s1))

/-- The scene resulting from one iteration of the event loop in
`Game._check_events`: `QUIT` calls `sys.exit()` (modelled by `none`);
otherwise the scene handles the event and a returned code installs a fresh
scene (the in-place mutation of a `GameScene` by `check_events` is kept when
no code is returned, and discarded when a fresh scene replaces it, as in the
source).  `rN` is the random draw used if a fresh scene is constructed. -/
def Game.handle_event_scene (g : Game) (e : Event) (rN : Int) :
    Option Scene :=
  match e with
  | Event.quit => none
  | _ =>
    match g.current_scene with
    | Scene.menu _ =>
      match MainMenu.check_events e with
      | some SceneCode.toGameScene => some (Scene.game (g.freshGameScene rN))
      | some SceneCode.toMainMenu => some (Scene.menu (g.freshMainMenu rN))
      | none => some g.current_scene
    | Scene.game s =>
      let sc := s.check_events e
      match sc.2 with
      | some SceneCode.toGameScene => some (Scene.game (g.freshGameScene rN))
      | some SceneCode.toMainMenu => some (Scene.menu (g.freshMainMenu rN))
      | none => some (Scene.game sc.1)

/-- One iteration of the event loop in `Game._check_events`, as the full
game state. -/
def Game.handle_event (g : Game) (e : Event) (rN : Int) : Option Game :=
  (g.handle_event_scene e rN).map g.set_scene

/-- `Game._check_events`: handle the polled events in order. -/
def Game.check_events (g : Game) (es : List Event) (rN : Int) : Option Game :=
  match es with
  | [] => some g
  | e :: rest =>
    match g.handle_event e rN with
    | none => none
    | some g1 => g1.check_events rest rN

/-- `Game.render`: `self._update_screen()` then `self._check_events()`. -/
def Game.render (g : Game) (es : List Event) (r rN rE : Int) : Option Game :=
  match g.update_screen r rN with
  | none => none
  | some g1 => g1.check_events es rE

/-- The observation dictionary built by `Game._get_obs`. -/
structure Obs where
  player_velocity : Int
  x_distance : Int
  y_upper_distance : Int
  y_lower_distance : Int
deriving Repr, DecidableEq

/-- `Game._get_obs` on a `GameScene` (Python raises on an empty pipe
list). -/
def GameScene.get_obs (s : GameScene) : Option Obs :=
  match s.pipes.getLast? with
  | none => none
  | some pt =>
    some { player_velocity := s.player.velocity,
           x_distance := pt.1.x - (s.player.x + s.player.spriteW),
           y_upper_distance := s.player.y - (pt.1.y + pt.1.spriteH),
           y_lower_distance := pt.2.y - (s.player.y + s.player.spriteH) }

/-- What a call to `Game.step` does, besides mutating the game: raise
(`KeyError` on an unknown action, `IndexError`/`AttributeError` reaching the
observation), fall through returning `None` (non-ml mode), or return the
5-tuple `(obs, reward, terminated, truncated, info)`; `info` is the score. -/
inductive StepOutcome
| crash
| retNone
| ret (obs : Obs) (reward : Int) (terminated : Bool) (truncated : Bool)
    (score : Nat)
deriving Repr, DecidableEq

/-- The reward component of a returned step tuple, if one was returned. -/
def StepOutcome.rewardOf : StepOutcome → Option Int
  | StepOutcome.ret _ rw _ _ _ => some rw
  | _ => none

/-- The terminated component of a returned step tuple, if one was
returned. -/
def StepOutcome.terminatedOf : StepOutcome → Option Bool
  | StepOutcome.ret _ _ t _ _ => some t
  | _ => none

/-- The truncated component of a returned step tuple, if one was
returned. -/
def StepOutcome.truncatedOf : StepOutcome → Option Bool
  | StepOutcome.ret _ _ _ tr _ => some tr
  | _ => none

/-- The info (score) component of a returned step tuple, if one was
returned. -/
def StepOutcome.scoreOf : StepOutcome → Option Nat
  | StepOutcome.ret _ _ _ _ sc => some sc
  | _ => none

/-- `Game._action_to_move = {0: "jump", 1: "do nothing"}`; any other action
raises `KeyError`. -/
def action_to_move (a : Nat) : Option Move :=
  if a = 0 then some Move.jump
  else if a = 1 then some Move.doNothing
  else none

/-- The body of the `if self.is_ml:` branch of `Game.step`, after
`self.render()`: apply the action to the player, consume
`has_passed_a_pipe` for reward `1`, override with reward `-500` and
termination on a collision, and return the 5-tuple.  A `MainMenu` current
scene lacks the attributes used here (`AttributeError`). -/
def Game.stepCore (g1 : Game) (a : Nat) : Game × StepOutcome :=
  match g1.current_scene with
  | Scene.menu _ => (g1, StepOutcome.crash)
  | Scene.game s =>
    match action_to_move a with
    | none => (g1, StepOutcome.crash)
    | some mv =>
      let s1 := { s with player := s.player.take_action mv }
      let passed := s1.has_passed_a_pipe
      let s2 := if passed then { s1 with has_passed_a_pipe := false } else s1
      let reward1 : Int := if passed then 1 else 0
      let collided := s2.check_collisions
      let reward := if collided then (-500 : Int) else reward1
      let g2 := { g1 with current_scene := Scene.game s2 }
      match s2.get_obs with
      | none => (g2, StepOutcome.crash)
      | some o =>
        (g2, StepOutcome.ret o reward collided false s2.score)

/-- `Game.step`: `self.render()`, then the ml branch; in non-ml mode the
function falls through and returns `None`. -/
def Game.step (g : Game) (a : Nat) (es : List Event) (r rN rE : Int) :
    Game × StepOutcome :=
  match g.render es r rN rE with
  | none => (g, StepOutcome.crash)
  | some g1 =>
    if g1.is_ml then g1.stepCore a else (g1, StepOutcome.retNone)

/-! ## Concrete fixtures used by witnesses and counterexamples -/

/-- Plausible sprite dimensions (classic flappy-bird assets); the claims
below never depend on the exact numbers. -/
def assetsA : Assets := { birdW := 34, birdH := 24, pipeW := 52, pipeH := 320 }

/-- A player hovering mid-screen. -/
def playerA : Player :=
  { x := 100, y := 300, spriteW := 34, spriteH := 24, surfaceH := 512,
    velocity := 0 }

/-- A player one tick above the bottom clamp, falling at full speed. -/
def playerB : Player :=
  { x := 100, y := 480, spriteW := 34, spriteH := 24, surfaceH := 512,
    velocity := 10 }

/-- A player resting on the bottom bound with zero velocity. -/
def playerGround : Player :=
  { x := 100, y := 488, spriteW := 34, spriteH := 24, surfaceH := 512,
    velocity := 0 }

/-! ## Claim C2 -/

/-- Claim C2, counterexample: `jump()` sets no flap flag, and the very next
`update()` does apply the gravity increment: starting from `playerA`, after
`jump(); update()` the velocity is `JUMP_VELOCITY + ACC_Y = -7`, not the
`JUMP_VELOCITY = -8` the claim's skipped-gravity tick would leave. -/
theorem c2_counterexample :
    (playerA.jump.update).velocity ≠ JUMP_VELOCITY ∧
    (playerA.jump.update).velocity = JUMP_VELOCITY + ACC_Y := by
  decide

/-- Claim C2 (amended): `jump()` sets `velocity = jump_velocity`; there is
no flap flag, and the following `update()` applies the gravity increment as
usual, so (when no screen-bound clamp fires on that tick) the player moves
by `jump_velocity + acc_y` and ends the tick with that velocity. -/
theorem c2_jump_then_gravity (p : Player)
    (h1 : 0 ≤ p.y + (JUMP_VELOCITY + ACC_Y))
    (h2 : p.y + (JUMP_VELOCITY + ACC_Y) ≤ p.surfaceH - p.spriteH) :
    p.jump.velocity = JUMP_VELOCITY ∧
    (p.jump.update).velocity = JUMP_VELOCITY + ACC_Y ∧
    (p.jump.update).y = p.y + (JUMP_VELOCITY + ACC_Y) := by
  obtain ⟨px, py, pw, ph, psh, pv⟩ := p
  simp only [Player.jump, Player.update, Player.newVelocity, JUMP_VELOCITY,
    ACC_Y, MAX_VELOCITY_Y] at *
  split_ifs <;> exact ⟨trivial, by omega, by omega⟩

/-- Witness for C2's amended theorem at `playerA`. -/
theorem c2_jump_then_gravity_witness :
    playerA.jump.velocity = JUMP_VELOCITY ∧
    (playerA.jump.update).velocity = JUMP_VELOCITY + ACC_Y ∧
    (playerA.jump.update).y = playerA.y + (JUMP_VELOCITY + ACC_Y) :=
  c2_jump_then_gravity playerA (by decide) (by decide)

/-! ## Claim C6 -/

/-- Claim C6: after any `update()` (for a sprite that fits on the surface),
the player's `y` lies in `[0, surface_height - sprite_height]`, and on a
tick whose pre-clamp position `y + newVelocity` crosses a bound, `y` is
clamped to that bound and the velocity is zeroed. -/
theorem c6_player_clamped (p : Player)
    (hb : 0 ≤ p.surfaceH - p.spriteH) :
    (0 ≤ p.update.y ∧ p.update.y ≤ p.surfaceH - p.spriteH) ∧
    (p.y + p.newVelocity < 0 → p.update.y = 0 ∧ p.update.velocity = 0) ∧
    (p.y + p.newVelocity > p.surfaceH - p.spriteH →
      p.update.y = p.surfaceH - p.spriteH ∧ p.update.velocity = 0) := by
  obtain ⟨px, py, pw, ph, psh, pv⟩ := p
  simp only [Player.update, Player.newVelocity, MAX_VELOCITY_Y, ACC_Y] at *
  split_ifs <;> refine ⟨⟨?_, ?_⟩, fun h => ⟨?_, ?_⟩, fun h => ⟨?_, ?_⟩⟩ <;>
    omega

/-- Witness for C6 at `playerB`, which crosses the bottom bound on this
tick. -/
theorem c6_player_clamped_witness :
    (0 ≤ playerB.update.y ∧
      playerB.update.y ≤ playerB.surfaceH - playerB.spriteH) ∧
    playerB.update.y = playerB.surfaceH - playerB.spriteH ∧
    playerB.update.velocity = 0 :=
  ⟨(c6_player_clamped playerB (by decide)).1,
   (c6_player_clamped playerB (by decide)).2.2 (by decide)⟩

/-! ## Claim C9 -/

/-- Claim C9, counterexample: a player resting on the bottom bound is a
fixpoint of `update()` with velocity `0`, so repeated updates never drive
the velocity to `MAX_VELOCITY_Y`, let alone keep it there: the bottom clamp
re-zeroes the velocity every tick. -/
theorem c9_counterexample :
    Player.update playerGround = playerGround ∧
    playerGround.velocity ≠ MAX_VELOCITY_Y ∧
    (Player.update^[20] playerGround).velocity ≠ MAX_VELOCITY_Y := by
  refine ⟨by decide, by decide, ?_⟩
  have h : Player.update playerGround = playerGround := by decide
  rw [Function.iterate_fixed h]
  decide

/-- Claim C9 (amended): with no jump, `update()` raises the velocity by
`acc_y` per tick and saturates it at `max_velocity_y` — the result never
exceeds `max_velocity_y`, and on ticks where no screen-bound clamp fires the
velocity is exactly the gravity-stepped `newVelocity` (one increment below
the maximum, unchanged at the maximum).  A bound clamp instead resets the
velocity to `0`, so the velocity does not remain at the maximum once the
player reaches the ground. -/
theorem c9_gravity_saturates (p : Player)
    (hv : p.velocity ≤ MAX_VELOCITY_Y)
    (hb : 0 ≤ p.surfaceH - p.spriteH) :
    p.update.velocity ≤ MAX_VELOCITY_Y ∧
    (0 ≤ p.y + p.newVelocity → p.y + p.newVelocity ≤ p.surfaceH - p.spriteH →
      p.update.velocity = p.newVelocity) ∧
    (p.velocity < MAX_VELOCITY_Y → p.newVelocity = p.velocity + ACC_Y) ∧
    (p.velocity = MAX_VELOCITY_Y → p.newVelocity = MAX_VELOCITY_Y) := by
  obtain ⟨px, py, pw, ph, psh, pv⟩ := p
  simp only [Player.update, Player.newVelocity, MAX_VELOCITY_Y, ACC_Y] at *
  split_ifs <;>
    refine ⟨?_, fun h1 h2 => ?_, fun h => ?_, fun h => ?_⟩ <;> omega

/-- Witness for C9's amended theorem at `playerA` (below the maximum, no
clamp this tick). -/
theorem c9_gravity_saturates_witness :
    playerA.update.velocity ≤ MAX_VELOCITY_Y ∧
    playerA.update.velocity = playerA.newVelocity ∧
    playerA.newVelocity = playerA.velocity + ACC_Y :=
  ⟨(c9_gravity_saturates playerA (by decide) (by decide)).1,
   (c9_gravity_saturates playerA (by decide) (by decide)).2.1 (by decide)
     (by decide),
   (c9_gravity_saturates playerA (by decide) (by decide)).2.2.1 (by decide)⟩

/-! ## Claim C4 -/

/-- The literal pipe of C4 at `(100, 300)`, size 50×50. -/
def pipeC4a : Pipe :=
  { x := 100, y := 300, spriteW := 50, spriteH := 50, velocity := -4 }

/-- The literal pipe of C4 at `(200, 300)`, size 50×50. -/
def pipeC4b : Pipe :=
  { x := 200, y := 300, spriteW := 50, spriteH := 50, velocity := -4 }

/-- The literal player of C4 at `(100, 300)`, size 50×50. -/
def playerC4 : Player :=
  { x := 100, y := 300, spriteW := 50, spriteH := 50, surfaceH := 512,
    velocity := 0 }

/-- Claim C4: `collides` is exactly the AABB overlap test on both axes;
`check_collisions` holds iff the player collides with either pipe of some
active pair or the ground (`player.y + height ≥ surface_height`); and the
two literal cases hold. -/
theorem c4_collision_aabb :
    (∀ (pipe : Pipe) (player : Player),
      pipe.collides player = true ↔
        (pipe.x < player.x + player.spriteW ∧
         pipe.x + pipe.spriteW > player.x ∧
         pipe.y < player.y + player.spriteH ∧
         pipe.y + pipe.spriteH > player.y)) ∧
    (∀ s : GameScene,
      s.check_collisions = true ↔
        ((∃ pt ∈ s.pipes,
            pt.1.collides s.player = true ∨ pt.2.collides s.player = true) ∨
         s.player.y + s.player.spriteH ≥ s.screenH)) ∧
    pipeC4a.collides playerC4 = true ∧
    pipeC4b.collides playerC4 = false := by
  refine ⟨?_, ?_, by decide, by decide⟩
  · intro pipe player
    unfold Pipe.collides
    split_ifs with h1 h2 <;> simp <;> omega
  · intro s
    simp only [GameScene.check_collisions, Bool.or_eq_true, List.any_eq_true,
      decide_eq_true_iff]

/-! ## Claim C8 -/

/-- Claim C8: for every draw `r` in the `randrange` interval
`[-pipe_height + GAP, 0)`, the generated pair has vertical gap exactly
`OFFSET = 110` between the top pipe's bottom edge and the bottom pipe's top
edge, the top pipe's `y` is the draw itself (hence in the interval), and
both pipes sit at `x = surface_width`. -/
theorem c8_generated_pair (screenW pipeW pipeH r : Int)
    (h1 : -pipeH + OFFSET ≤ r) (h2 : r < 0) :
    (generate_pipes screenW pipeW pipeH r).2.y -
      ((generate_pipes screenW pipeW pipeH r).1.y +
        (generate_pipes screenW pipeW pipeH r).1.spriteH) = OFFSET ∧
    (generate_pipes screenW pipeW pipeH r).1.y = r ∧
    -pipeH + OFFSET ≤ (generate_pipes screenW pipeW pipeH r).1.y ∧
    (generate_pipes screenW pipeW pipeH r).1.y < 0 ∧
    (generate_pipes screenW pipeW pipeH r).1.x = screenW ∧
    (generate_pipes screenW pipeW pipeH r).2.x = screenW := by
  simp only [OFFSET] at h1
  refine ⟨?_, ?_, ?_, ?_, ?_, ?_⟩ <;>
    simp only [generate_pipes, Pipe.init, OFFSET] <;> omega

/-- Witness for C8 at the reference 300-wide screen, 52×320 pipe sprite and
draw `r = -100`. -/
theorem c8_generated_pair_witness :
    (generate_pipes 300 52 320 (-100)).2.y -
      ((generate_pipes 300 52 320 (-100)).1.y +
        (generate_pipes 300 52 320 (-100)).1.spriteH) = OFFSET ∧
    (generate_pipes 300 52 320 (-100)).1.y = -100 ∧
    -320 + OFFSET ≤ (generate_pipes 300 52 320 (-100)).1.y ∧
    (generate_pipes 300 52 320 (-100)).1.y < 0 ∧
    (generate_pipes 300 52 320 (-100)).1.x = 300 ∧
    (generate_pipes 300 52 320 (-100)).2.x = 300 :=
  c8_generated_pair 300 52 320 (-100) (by decide) (by decide)

/-! ## Claim C5 -/

/-- Scrolling a pipe `t` ticks moves `x` by `t · velocity` and changes
nothing else that the lifecycle check reads. -/
lemma pipe_iterate_spec (p : Pipe) (t : Nat) :
    (Pipe.update^[t] p).x = p.x + t * p.velocity ∧
    (Pipe.update^[t] p).velocity = p.velocity ∧
    (Pipe.update^[t] p).spriteW = p.spriteW := by
  induction t with
  | zero => simp
  | succ n ih =>
    obtain ⟨hx, hv, hw⟩ := ih
    rw [Function.iterate_succ_apply']
    refine ⟨?_, ?_, ?_⟩ <;> simp only [Pipe.update, hx, hv, hw] <;>
      first
      | rfl
      | (push_cast; ring)

/-- Claim C5: the lifecycle check evaluates its two conditions on the front
pair only — in the spawn window `(0, 5)` exactly one freshly generated pair
is appended (and nothing is removed), once past `-pipe_width` the front pair
alone is removed, otherwise the sequence is untouched; and for the actual
scroll trajectory (spawn at `x = 300`, velocity `-4`) the spawn window is
hit at exactly one tick (`t = 74`) and the removal condition holds exactly
from tick `⌈(300 + w)/4⌉ + 1` on. -/
theorem c5_pipe_lifecycle (s : GameScene) (hd : Pipe × Pipe)
    (tl : List (Pipe × Pipe)) (r : Int) (p0 : Pipe)
    (hpipes : s.pipes = hd :: tl) (hw : 0 ≤ hd.1.spriteW)
    (hx0 : p0.x = 300) (hv0 : p0.velocity = -4) :
    ((0 < hd.1.x ∧ hd.1.x < 5) →
      s.check_pipes r = some (s.with_pipes (s.pipes ++
        [generate_pipes s.screenW s.assets.pipeW s.assets.pipeH r]))) ∧
    (hd.1.x < -hd.1.spriteW →
      s.check_pipes r = some (s.with_pipes tl)) ∧
    (¬(0 < hd.1.x ∧ hd.1.x < 5) → ¬(hd.1.x < -hd.1.spriteW) →
      s.check_pipes r = some s) ∧
    (∀ t : Nat,
      (0 < (Pipe.update^[t] p0).x ∧ (Pipe.update^[t] p0).x < 5) ↔ t = 74) ∧
    (∀ t : Nat,
      (Pipe.update^[t] p0).x < -(Pipe.update^[t] p0).spriteW ↔
        300 + p0.spriteW < 4 * (t : Int)) := by
  refine ⟨?_, ?_, ?_, ?_, ?_⟩
  · intro h
    simp only [GameScene.check_pipes, hpipes]
    rw [if_pos h, if_neg (by omega)]
  · intro h
    have hno : ¬(0 < hd.1.x ∧ hd.1.x < 5) := by omega
    simp only [GameScene.check_pipes, hpipes]
    rw [if_neg hno, if_pos h]
    rfl
  · intro h1 h2
    simp only [GameScene.check_pipes, hpipes]
    rw [if_neg h1, if_neg h2, ← hpipes]
    rfl
  · intro t
    obtain ⟨hx, hv, _⟩ := pipe_iterate_spec p0 t
    rw [hx, hx0, hv0]
    omega
  · intro t
    obtain ⟨hx, hv, hsw⟩ := pipe_iterate_spec p0 t
    rw [hx, hsw, hx0, hv0]
    omega

/-- A pipe as freshly spawned at `x = 300` with scroll velocity `-4`. -/
def pipeC5 : Pipe :=
  { x := 300, y := -100, spriteW := 52, spriteH := 320, velocity := -4 }

/-- The front pipe pair of the C5 witness scene, inside the spawn window. -/
def pairC5 : Pipe × Pipe :=
  ({ x := 4, y := -100, spriteW := 52, spriteH := 320, velocity := -4 },
   { x := 4, y := 330, spriteW := 52, spriteH := 320, velocity := -4 })

/-- A scene whose front (and only) pipe pair sits in the spawn window. -/
def sceneC5 : GameScene :=
  { screenW := 300, screenH := 512, assets := assetsA, is_ml := true,
    has_passed_a_pipe := false, player := playerA, score := 0,
    pipes := [pairC5] }

/-- Witness for C5: at `sceneC5` the spawn branch fires and appends exactly
the generated pair, and the scroll trajectory from `x = 300` is inside the
spawn window at tick 74. -/
theorem c5_pipe_lifecycle_witness :
    sceneC5.check_pipes 0 = some (sceneC5.with_pipes (sceneC5.pipes ++
      [generate_pipes sceneC5.screenW sceneC5.assets.pipeW
        sceneC5.assets.pipeH 0])) ∧
    (0 < (Pipe.update^[74] pipeC5).x ∧ (Pipe.update^[74] pipeC5).x < 5) :=
  ⟨(c5_pipe_lifecycle sceneC5 pairC5 [] 0 pipeC5 rfl (by decide) rfl
      rfl).1 (by decide),
   ((c5_pipe_lifecycle sceneC5 pairC5 [] 0 pipeC5 rfl (by decide) rfl
      rfl).2.2.2.1 74).2 rfl⟩

/-! ## Game-level helper lemmas -/

/-- Replacing the scene changes no other `Game` field. -/
lemma set_scene_fields (g : Game) (sc : Scene) :
    (g.set_scene sc).is_ml = g.is_ml ∧
    (g.set_scene sc).screenW = g.screenW ∧
    (g.set_scene sc).screenH = g.screenH ∧
    (g.set_scene sc).assets = g.assets :=
  ⟨rfl, rfl, rfl, rfl⟩

/-- `_check_events` (one event) only ever replaces the scene. -/
lemma handle_event_preserves (g g' : Game) (e : Event) (rN : Int)
    (h : g.handle_event e rN = some g') :
    g'.is_ml = g.is_ml ∧ g'.screenW = g.screenW ∧
    g'.screenH = g.screenH ∧ g'.assets = g.assets := by
  unfold Game.handle_event at h
  obtain ⟨sc, hsc, hg⟩ := Option.map_eq_some'.1 h
  subst hg
  exact ⟨rfl, rfl, rfl, rfl⟩

/-- `_check_events` (all events) only ever replaces the scene. -/
lemma check_events_preserves (es : List Event) (g g' : Game) (rN : Int)
    (h : g.check_events es rN = some g') :
    g'.is_ml = g.is_ml ∧ g'.screenW = g.screenW ∧
    g'.screenH = g.screenH ∧ g'.assets = g.assets := by
  induction es generalizing g with
  | nil =>
    simp only [Game.check_events, Option.some.injEq] at h
    subst h
    exact ⟨rfl, rfl, rfl, rfl⟩
  | cons e rest ih =>
    simp only [Game.check_events] at h
    cases hh : g.handle_event e rN with
    | none => rw [hh] at h; cases h
    | some g1 =>
      rw [hh] at h
      obtain ⟨i1, i2, i3, i4⟩ := ih g1 h
      obtain ⟨j1, j2, j3, j4⟩ := handle_event_preserves g g1 e rN hh
      exact ⟨i1.trans j1, i2.trans j2, i3.trans j3, i4.trans j4⟩

/-- `Game._update_screen` only ever replaces the scene. -/
lemma update_screen_preserves (g g' : Game) (r rN : Int)
    (h : g.update_screen r rN = some g') :
    g'.is_ml = g.is_ml ∧ g'.screenW = g.screenW ∧
    g'.screenH = g.screenH ∧ g'.assets = g.assets := by
  unfold Game.update_screen at h
  split at h
  · simp only [Option.some.injEq] at h
    subst h
    exact ⟨rfl, rfl, rfl, rfl⟩
  · split at h
    · cases h
    · split at h <;> simp only [Option.some.injEq] at h <;> subst h <;>
        exact ⟨rfl, rfl, rfl, rfl⟩

/-- `Game.render` only ever replaces the scene. -/
lemma render_preserves (g g' : Game) (es : List Event) (r rN rE : Int)
    (h : g.render es r rN rE = some g') :
    g'.is_ml = g.is_ml ∧ g'.screenW = g.screenW ∧
    g'.screenH = g.screenH ∧ g'.assets = g.assets := by
  unfold Game.render at h
  cases hu : g.update_screen r rN with
  | none => rw [hu] at h; cases h
  | some g1 =>
    rw [hu] at h
    obtain ⟨i1, i2, i3, i4⟩ := check_events_preserves es g1 g' rE h
    obtain ⟨j1, j2, j3, j4⟩ := update_screen_preserves g g1 r rN hu
    exact ⟨i1.trans j1, i2.trans j2, i3.trans j3, i4.trans j4⟩

/-- Collision detection ignores `has_passed_a_pipe`. -/
lemma check_collisions_set_flag (s : GameScene) (b : Bool) :
    GameScene.check_collisions { s with has_passed_a_pipe := b } =
      s.check_collisions := rfl

/-- Collision detection ignores the player's velocity, hence the action
applied by `step` (a jump only changes the velocity). -/
lemma check_collisions_take_action (s : GameScene) (mv : Move) :
    GameScene.check_collisions { s with player := s.player.take_action mv } =
      s.check_collisions := by
  cases mv <;> rfl

/-- `take_action` only ever changes the velocity, never the geometry. -/
lemma take_action_geometry (p : Player) (mv : Move) :
    (p.take_action mv).x = p.x ∧ (p.take_action mv).y = p.y ∧
    (p.take_action mv).spriteW = p.spriteW ∧
    (p.take_action mv).spriteH = p.spriteH := by
  cases mv <;> exact ⟨rfl, rfl, rfl, rfl⟩

/-- Collision detection only reads the player's geometry, the pipe list and
the screen height; the pass flag and a velocity-only player change do not
affect it. -/
lemma check_collisions_congr (s : GameScene) (pl : Player) (b : Bool)
    (hx : pl.x = s.player.x) (hy : pl.y = s.player.y)
    (hw : pl.spriteW = s.player.spriteW)
    (hh : pl.spriteH = s.player.spriteH) :
    GameScene.check_collisions
      { s with player := pl, has_passed_a_pipe := b } =
      s.check_collisions := by
  unfold GameScene.check_collisions Pipe.collides
  simp only [hx, hy, hw, hh]

/-! ## Claim C10 -/

/-- Claim C10: with `is_ml = False` a (non-crashing) `Game.step` call
renders — advancing the scene and processing events — but skips the whole
ml branch and falls off the end of the function, returning `None` instead
of the `(observation, reward, terminated, truncated, info)` tuple. -/
theorem c10_step_returns_none (g g1 : Game) (a : Nat) (es : List Event)
    (r rN rE : Int)
    (hml : g.is_ml = false)
    (hr : g.render es r rN rE = some g1) :
    g.step a es r rN rE = (g1, StepOutcome.retNone) := by
  unfold Game.step
  rw [hr]
  have h1 : g1.is_ml = false := (render_preserves g g1 es r rN rE hr).1.trans hml
  simp [h1]

/-- A freshly constructed interactive game (menu scene). -/
def gameMenuA : Game := Game.init false assetsA (-150)

/-- The menu game after one render with no events. -/
def gameMenuA1 : Game := (gameMenuA.render [] 0 0 0).getD gameMenuA

/-- Witness for C10: the interactive game's `step` returns `None`. -/
theorem c10_step_returns_none_witness :
    gameMenuA.step 1 [] 0 0 0 = (gameMenuA1, StepOutcome.retNone) :=
  c10_step_returns_none gameMenuA gameMenuA1 1 [] 0 0 0 rfl (by decide)

/-! ## Claim C1 -/

/-- Claim C1: in agent mode, whenever the collision check of the tick
processed by `Game.step` detects a collision (with a pipe or the ground) on
the post-render scene, `step` returns reward `-500` and `terminated = true`,
whichever of the two legal actions was supplied. -/
theorem c1_collision_reward (g g1 : Game) (s : GameScene) (a : Nat)
    (es : List Event) (r rN rE : Int)
    (hml : g.is_ml = true)
    (hr : g.render es r rN rE = some g1)
    (hsc : g1.current_scene = Scene.game s)
    (ha : a = 0 ∨ a = 1)
    (hne : s.pipes ≠ [])
    (hcol : s.check_collisions = true) :
    StepOutcome.rewardOf (g.step a es r rN rE).2 = some (-500) ∧
    StepOutcome.terminatedOf (g.step a es r rN rE).2 = some true := by
  have h1 : g1.is_ml = true := (render_preserves g g1 es r rN rE hr).1.trans hml
  obtain ⟨pt, hpt⟩ : ∃ pt, s.pipes.getLast? = some pt := by
    cases hp : s.pipes.getLast? with
    | none => exact absurd (List.getLast?_eq_none_iff.1 hp) hne
    | some pt => exact ⟨pt, rfl⟩
  have hcc : ∀ mv : Move,
      GameScene.check_collisions
        { s with player := s.player.take_action mv,
                 has_passed_a_pipe := false } = true := by
    intro mv
    obtain ⟨hx, hy, hw, hh⟩ := take_action_geometry s.player mv
    exact (check_collisions_congr s (s.player.take_action mv) false
      hx hy hw hh).trans hcol
  unfold Game.step
  rw [hr]
  simp only [h1, if_true]
  unfold Game.stepCore
  rw [hsc]
  rcases ha with rfl | rfl <;>
  · simp only [action_to_move]
    norm_num
    cases hfl : s.has_passed_a_pipe <;>
    · norm_num
      rw [hcc]
      simp only [GameScene.get_obs, hpt, hcc]
      simp [StepOutcome.rewardOf, StepOutcome.terminatedOf, hcc]

/-- A scene one tick away from a ground collision: the player is at
`y = 480` falling at full speed; the pipe pair is horizontally clear. -/
def sceneC1 : GameScene :=
  { screenW := 300, screenH := 512, assets := assetsA, is_ml := true,
    has_passed_a_pipe := false, player := playerB, score := 0,
    pipes := [({ x := 200, y := -310, spriteW := 52, spriteH := 320,
                 velocity := -4 },
               { x := 200, y := 120, spriteW := 52, spriteH := 320,
                 velocity := -4 })] }

/-- The agent-mode game holding `sceneC1`. -/
def gameC1 : Game :=
  { is_ml := true, screenW := 300, screenH := 512, assets := assetsA,
    current_scene := Scene.game sceneC1 }

/-- `gameC1` after the render phase of one step (player clamped onto the
ground). -/
def gameC1r : Game := (gameC1.render [] 0 0 0).getD gameC1

/-- The post-render scene of `gameC1r`. -/
def sceneC1r : GameScene :=
  match gameC1r.current_scene with
  | Scene.game s => s
  | Scene.menu _ => sceneC1

/-- Witness for C1: stepping `gameC1` (action `1`, no events) hits the
ground this tick and returns reward `-500`, terminated. -/
theorem c1_collision_reward_witness :
    StepOutcome.rewardOf (gameC1.step 1 [] 0 0 0).2 = some (-500) ∧
    StepOutcome.terminatedOf (gameC1.step 1 [] 0 0 0).2 = some true :=
  c1_collision_reward gameC1 gameC1r sceneC1r 1 [] 0 0 0 rfl (by decide)
    (by decide) (Or.inr rfl) (by decide) (by decide)

/-! ## Claim C7 -/

/-- Claim C7: the scene state machine — a menu plus the space key installs a
fresh `GameScene`; a game scene with a detected collision installs a fresh
`MainMenu` in interactive mode and resets to a fresh `GameScene` in agent
mode; a game scene plus the `m` key installs a fresh `MainMenu`; and the
unrecognized events (a `KEYDOWN` with any other key, or a non-key event)
leave the current scene in place. -/
theorem c7_scene_transitions (gm gsI gsA : Game) (m : MainMenu)
    (sI sA : GameScene) (r rN : Int) (e : Event)
    (hm : gm.current_scene = Scene.menu m)
    (hi : gsI.current_scene = Scene.game sI)
    (hiM : sI.is_ml = false)
    (hiC : sI.check_collisions = true)
    (ha : gsA.current_scene = Scene.game sA)
    (haM : sA.is_ml = true)
    (haC : sA.check_collisions = true)
    (he : e = Event.keydown Key.other ∨ e = Event.other) :
    gm.handle_event (Event.keydown Key.space) r =
      some (gm.set_scene (Scene.game (gm.freshGameScene r))) ∧
    gsI.update_screen r rN =
      some (gsI.set_scene (Scene.menu (gsI.freshMainMenu rN))) ∧
    gsA.update_screen r rN = some (gsA.reset rN) ∧
    gsI.handle_event (Event.keydown Key.keyM) r =
      some (gsI.set_scene (Scene.menu (gsI.freshMainMenu r))) ∧
    gm.handle_event e r = some gm ∧
    gsI.handle_event e r = some gsI := by
  have hgm : gm.set_scene gm.current_scene = gm := rfl
  have hgi : gsI.set_scene gsI.current_scene = gsI := rfl
  refine ⟨?_, ?_, ?_, ?_, ?_, ?_⟩
  · simp [Game.handle_event, Game.handle_event_scene, hm,
      MainMenu.check_events]
  · simp [Game.update_screen, GameScene.update_screen, hi, hiC, hiM]
  · simp [Game.update_screen, GameScene.update_screen, ha, haC, haM]
  · simp [Game.handle_event, Game.handle_event_scene, hi,
      GameScene.check_events]
  · rcases he with rfl | rfl <;>
      simp [Game.handle_event, Game.handle_event_scene, hm,
        MainMenu.check_events] <;>
      rw [← hm, hgm]
  · rcases he with rfl | rfl <;>
      simp [Game.handle_event, Game.handle_event_scene, hi,
        GameScene.check_events] <;>
      rw [← hi, hgi]

/-- The decorative main menu used by the C7 witness. -/
def menuA : MainMenu := MainMenu.init 300 512 assetsA (-150)

/-- An interactive game sitting in the main menu. -/
def gameMenuB : Game :=
  { is_ml := false, screenW := 300, screenH := 512, assets := assetsA,
    current_scene := Scene.menu menuA }

/-- An interactive-mode scene whose player rests on the ground
(collision). -/
def sceneColI : GameScene :=
  { screenW := 300, screenH := 512, assets := assetsA, is_ml := false,
    has_passed_a_pipe := false, player := playerGround, score := 0,
    pipes := [({ x := 200, y := -310, spriteW := 52, spriteH := 320,
                 velocity := -4 },
               { x := 200, y := 120, spriteW := 52, spriteH := 320,
                 velocity := -4 })] }

/-- The same colliding scene in agent mode. -/
def sceneColA : GameScene := { sceneColI with is_ml := true }

/-- The interactive game holding the colliding scene. -/
def gameColI : Game :=
  { is_ml := false, screenW := 300, screenH := 512, assets := assetsA,
    current_scene := Scene.game sceneColI }

/-- The agent-mode game holding the colliding scene. -/
def gameColA : Game :=
  { is_ml := true, screenW := 300, screenH := 512, assets := assetsA,
    current_scene := Scene.game sceneColA }

/-- Witness for C7 at the concrete games above, with `Event.other` as the
unrecognized event. -/
theorem c7_scene_transitions_witness :
    gameMenuB.handle_event (Event.keydown Key.space) 0 =
      some (gameMenuB.set_scene (Scene.game (gameMenuB.freshGameScene 0))) ∧
    gameColI.update_screen 0 0 =
      some (gameColI.set_scene (Scene.menu (gameColI.freshMainMenu 0))) ∧
    gameColA.update_screen 0 0 = some (gameColA.reset 0) ∧
    gameColI.handle_event (Event.keydown Key.keyM) 0 =
      some (gameColI.set_scene (Scene.menu (gameColI.freshMainMenu 0))) ∧
    gameMenuB.handle_event Event.other 0 = some gameMenuB ∧
    gameColI.handle_event Event.other 0 = some gameColI :=
  c7_scene_transitions gameMenuB gameColI gameColA menuA sceneColI sceneColA
    0 0 Event.other rfl rfl rfl (by decide) rfl rfl (by decide) (Or.inr rfl)

/-! ## Claim C3 -/

/-- The `_check_player` loop adds one to the score and raises the flag for
every pipe pair in the midpoint window, and touches nothing else. -/
lemma check_player_foldl (pm : Int) (l : List (Pipe × Pipe))
    (acc : GameScene) :
    (List.foldl (check_player_step pm) acc l).score =
      acc.score + l.countP (inWindow pm) ∧
    (List.foldl (check_player_step pm) acc l).has_passed_a_pipe =
      (acc.has_passed_a_pipe || l.any (inWindow pm)) ∧
    (List.foldl (check_player_step pm) acc l).player = acc.player ∧
    (List.foldl (check_player_step pm) acc l).pipes = acc.pipes ∧
    (List.foldl (check_player_step pm) acc l).screenW = acc.screenW ∧
    (List.foldl (check_player_step pm) acc l).screenH = acc.screenH ∧
    (List.foldl (check_player_step pm) acc l).assets = acc.assets ∧
    (List.foldl (check_player_step pm) acc l).is_ml = acc.is_ml := by
  induction l generalizing acc with
  | nil => simp
  | cons hd tl ih =>
    obtain ⟨h1, h2, h3, h4, h5, h6, h7, h8⟩ := ih (check_player_step pm acc hd)
    simp only [List.foldl_cons, List.countP_cons, List.any_cons]
    rw [h1, h2, h3, h4, h5, h6, h7, h8]
    by_cases h : inWindow pm hd = true <;>
      refine ⟨?_, ?_, ?_, ?_, ?_, ?_, ?_, ?_⟩ <;>
      simp [check_player_step, h] <;>
      omega

/-- `_check_player` in terms of the scene it starts from. -/
lemma check_player_spec (s : GameScene) :
    (s.check_player).score =
      s.score + s.pipes.countP (inWindow (2 * s.player.x + s.player.spriteW)) ∧
    (s.check_player).has_passed_a_pipe =
      (s.has_passed_a_pipe ||
        s.pipes.any (inWindow (2 * s.player.x + s.player.spriteW))) ∧
    (s.check_player).player = s.player ∧
    (s.check_player).pipes = s.pipes ∧
    (s.check_player).screenW = s.screenW ∧
    (s.check_player).screenH = s.screenH ∧
    (s.check_player).assets = s.assets ∧
    (s.check_player).is_ml = s.is_ml :=
  check_player_foldl (2 * s.player.x + s.player.spriteW) s.pipes s

/-- `_check_pipes` only changes the pipe list. -/
lemma check_pipes_fields (s s' : GameScene) (r : Int)
    (h : s.check_pipes r = some s') :
    s'.score = s.score ∧ s'.has_passed_a_pipe = s.has_passed_a_pipe ∧
    s'.player = s.player ∧ s'.is_ml = s.is_ml := by
  unfold GameScene.check_pipes at h
  split at h
  · cases h
  · simp only [Option.some.injEq] at h
    subst h
    exact ⟨rfl, rfl, rfl, rfl⟩

/-- Claim C3 (amended): in agent mode, on a tick where the player's
midpoint sits in the 4-unit window past exactly one pipe pair's midpoint
and no collision is detected (neither at the start of the tick, which would
reset the scene, nor after the positions update, which would override the
reward with `-500`), `step(no-op)` returns reward `+1` with the score
incremented by exactly 1, and `has_passed_a_pipe` is cleared after `step`
reads it. -/
theorem c3_pass_reward (g : Game) (s0 s1 : GameScene) (r rN rE : Int)
    (hml : g.is_ml = true)
    (hsc : g.current_scene = Scene.game s0)
    (hcol0 : s0.check_collisions = false)
    (hwin : s0.pipes.countP
      (inWindow (2 * s0.player.x + s0.player.spriteW)) = 1)
    (hs1 : (s0.check_player.update_positions).check_pipes r = some s1)
    (hcol1 : s1.check_collisions = false)
    (hne1 : s1.pipes ≠ []) :
    StepOutcome.rewardOf (g.step 1 [] r rN rE).2 = some 1 ∧
    StepOutcome.terminatedOf (g.step 1 [] r rN rE).2 = some false ∧
    StepOutcome.scoreOf (g.step 1 [] r rN rE).2 = some (s0.score + 1) ∧
    s1.score = s0.score + 1 ∧
    (g.step 1 [] r rN rE).1.current_scene =
      Scene.game { s1 with has_passed_a_pipe := false } := by
  have hscore1 : s1.score = s0.score + 1 := by
    obtain ⟨h1, -, -, -⟩ := check_pipes_fields _ s1 r hs1
    rw [h1]
    have h2 : (s0.check_player.update_positions).score =
        (s0.check_player).score := rfl
    rw [h2, (check_player_spec s0).1, hwin]
  have hflag1 : s1.has_passed_a_pipe = true := by
    obtain ⟨-, h1, -, -⟩ := check_pipes_fields _ s1 r hs1
    rw [h1]
    have h2 : (s0.check_player.update_positions).has_passed_a_pipe =
        (s0.check_player).has_passed_a_pipe := rfl
    rw [h2, (check_player_spec s0).2.1]
    have hany : s0.pipes.any
        (inWindow (2 * s0.player.x + s0.player.spriteW)) = true := by
      rw [List.any_eq_true]
      exact List.countP_pos_iff.1 (by rw [hwin]; norm_num)
    rw [hany, Bool.or_true]
  have hrender : g.render [] r rN rE =
      some (g.set_scene (Scene.game s1)) := by
    unfold Game.render
    simp only [Game.update_screen, hsc]
    simp only [GameScene.update_screen, hcol0, Bool.false_eq_true, if_false]
    simp only [hs1]
    simp only [Game.check_events]
  have hcc : GameScene.check_collisions
      { s1 with player := s1.player.take_action Move.doNothing,
                has_passed_a_pipe := false } = false := by
    obtain ⟨hx, hy, hw, hh⟩ := take_action_geometry s1.player Move.doNothing
    exact (check_collisions_congr s1 _ false hx hy hw hh).trans hcol1
  obtain ⟨pt, hpt⟩ : ∃ pt, s1.pipes.getLast? = some pt := by
    cases hp : s1.pipes.getLast? with
    | none => exact absurd (List.getLast?_eq_none_iff.1 hp) hne1
    | some pt => exact ⟨pt, rfl⟩
  unfold Game.step
  rw [hrender]
  have hmlg : (g.set_scene (Scene.game s1)).is_ml = true := hml
  simp only [hmlg, if_true]
  unfold Game.stepCore
  simp only [Game.set_scene]
  norm_num [action_to_move]
  simp only [hflag1, if_true]
  rw [hcc]
  simp only [GameScene.get_obs, hpt, hcc]
  simp [StepOutcome.rewardOf, StepOutcome.terminatedOf, StepOutcome.scoreOf,
    hscore1, Player.take_action]

/-- An agent-mode scene whose player midpoint is in the pass window of its
single pipe pair (no overlap with either pipe), but which hits the ground
when positions update this tick. -/
def sceneC3 : GameScene :=
  { screenW := 300, screenH := 512, assets := assetsA, is_ml := true,
    has_passed_a_pipe := false, player := playerB, score := 0,
    pipes := [({ x := 91, y := -310, spriteW := 52, spriteH := 320,
                 velocity := -4 },
               { x := 91, y := 120, spriteW := 52, spriteH := 320,
                 velocity := -4 })] }

/-- The agent-mode game holding `sceneC3`. -/
def gameC3 : Game :=
  { is_ml := true, screenW := 300, screenH := 512, assets := assetsA,
    current_scene := Scene.game sceneC3 }

/-- Claim C3, counterexample: on `gameC3`'s tick the midpoint window
condition holds (for exactly one pair) and no collision exists at the start
of the tick, yet `step(no-op)` returns reward `-500` (terminated), not
`+1`: the player hits the ground after this tick's position update, and the
collision branch overrides the pass reward. -/
theorem c3_counterexample :
    List.countP (inWindow (2 * sceneC3.player.x + sceneC3.player.spriteW))
      sceneC3.pipes = 1 ∧
    sceneC3.check_collisions = false ∧
    StepOutcome.rewardOf (gameC3.step 1 [] 0 0 0).2 = some (-500) ∧
    StepOutcome.terminatedOf (gameC3.step 1 [] 0 0 0).2 = some true := by
  decide

/-- An agent-mode scene in the pass window with the player safely inside
the gap, colliding with nothing this tick. -/
def sceneC3w : GameScene :=
  { screenW := 300, screenH := 512, assets := assetsA, is_ml := true,
    has_passed_a_pipe := false, player := playerA, score := 0,
    pipes := [({ x := 91, y := -100, spriteW := 52, spriteH := 320,
                 velocity := -4 },
               { x := 91, y := 330, spriteW := 52, spriteH := 320,
                 velocity := -4 })] }

/-- The agent-mode game holding `sceneC3w`. -/
def gameC3w : Game :=
  { is_ml := true, screenW := 300, screenH := 512, assets := assetsA,
    current_scene := Scene.game sceneC3w }

/-- `sceneC3w` after this tick's `_check_player`, `_update_positions` and
`_check_pipes`. -/
def sceneC3w1 : GameScene :=
  ((sceneC3w.check_player.update_positions).check_pipes 0).getD sceneC3w

/-- Witness for C3's amended theorem at `gameC3w`. -/
theorem c3_pass_reward_witness :
    StepOutcome.rewardOf (gameC3w.step 1 [] 0 0 0).2 = some 1 ∧
    StepOutcome.terminatedOf (gameC3w.step 1 [] 0 0 0).2 = some false ∧
    StepOutcome.scoreOf (gameC3w.step 1 [] 0 0 0).2 =
      some (sceneC3w.score + 1) ∧
    sceneC3w1.score = sceneC3w.score + 1 ∧
    (gameC3w.step 1 [] 0 0 0).1.current_scene =
      Scene.game { sceneC3w1 with has_passed_a_pipe := false } :=
  c3_pass_reward gameC3w sceneC3w sceneC3w1 0 0 0 rfl rfl (by decide)
    (by decide) (by decide) (by decide) (by decide)
